import Mathlib

/-!
Verification of the WSL2 two-phase automation script
(`wsl2/wsl2_automation.py`).

The script is sequential shell-command orchestration.  We embed it as a
deterministic state transformer over an explicit `World` (the observable
file-system and command-invocation state) parameterised by an `Env`
oracle that fixes the ambient environment (WSL or Windows, resolved
Windows user name) and the outcome of every external command the script
may invoke (git clone, apt, make, cp, powershell trigger, wsl shutdown,
rmtree).  Python control flow — early `return False`, raised exceptions
caught by `try/except`, and the `finally: os.chdir(original_dir)` block —
is modelled by an explicit exit kind `P1Exit` threaded through the
phase-1 body, with the `finally` applied by the wrapper.
-/

namespace WSL2

/-- The persisted automation state record (`_save_state` /
`_load_state`), `automation_state.json`. -/
structure StateRecord where
  phase1_completed : Bool
  kernel_built : Bool
  windows_user : String
  timestamp : Nat
deriving Repr, DecidableEq

/-- Constructor parameters of `WSL2Automator` (`__init__`). -/
structure Config where
  kernel_branch : String
  kernel_dest : String
  kernel_repo : String
  kernel_dir : String
  auto_clone : Bool
deriving Repr, DecidableEq

/-- Ambient environment and the oracle fixing the outcome of every
external command invocation.  `nprocOut` is `none` when the `nproc`
call raises (the inner `try` falls back to `"4"`), otherwise the
captured stdout. -/
structure Env where
  is_wsl : Bool
  windows_user : String
  kernel_dir_exists : Bool
  cloneOk : Bool
  aptUpdateOk : Bool
  aptInstallOk : Bool
  nprocOut : Option String
  makeOk : Bool
  modulesInstallOk : Bool
  bzImageExists : Bool
  cpOk : Bool
  triggerExitZero : Bool
  wslShutdownOk : Bool
  rmtreeOk : Bool
  timestamp : Nat
deriving Repr, DecidableEq

/-- One external command invocation, as issued by `_run_command` (or the
direct `subprocess.run` inside `_trigger_phase2`). -/
inductive Cmd where
  | gitClone (repo dir branch : String)
  | aptUpdate
  | aptInstall
  | nproc
  | make (jobs : String)
  | makeModulesInstall
  | cp (src dst : String)
  | powershellPhase2
  | wslShutdown
deriving Repr, DecidableEq

/-- The generated `phase2.ps1` script is a fixed PowerShell template
whose only interpolated values are the Windows user name and the kernel
destination path; we record exactly those. -/
structure Phase2Script where
  user : String
  dest : String
deriving Repr, DecidableEq

/-- Observable world state: current working directory (as a stack of
path components), the ordered trace of external command invocations, the
scratch directory and the state record inside it, the generated remote
script, and the `.wslconfig` writes performed by phase 2. -/
structure World where
  cwd : List String
  commands : List Cmd
  stateFile : Option StateRecord
  tempDirExists : Bool
  winScriptDirExists : Bool
  phase2Script : Option Phase2Script
  wslConfigWrites : List (String × String)
deriving Repr, DecidableEq

/-- Record one external command invocation (the command is issued before
its success or failure is known, so it is appended unconditionally). -/
def addCmd (w : World) (c : Cmd) : World :=
  { w with commands := w.commands ++ [c] }

/-- How the `try` body of `phase1_wsl_tasks` exits: normal
`return True`, an explicit `return False`, a
`subprocess.CalledProcessError` from a checked command, or the
`RuntimeError` raised by `_create_phase2_script`. -/
inductive P1Exit where
  | retTrue
  | retFalse
  | calledProcessError
  | runtimeError
deriving Repr, DecidableEq

/-- Predicate selecting package-manager (`apt`) invocations. -/
def Cmd.isApt : Cmd → Bool
  | Cmd.aptUpdate => true
  | Cmd.aptInstall => true
  | _ => false

/-- Predicate selecting the remote-script trigger invocation. -/
def Cmd.isTrigger : Cmd → Bool
  | Cmd.powershellPhase2 => true
  | _ => false

/-- Predicate selecting the `wsl --shutdown` invocation. -/
def Cmd.isShutdown : Cmd → Bool
  | Cmd.wslShutdown => true
  | _ => false

/-- Number of package-manager invocations recorded in the world. -/
def aptInvocations (w : World) : Nat :=
  (w.commands.filter Cmd.isApt).length

/-- Number of times the generated remote script was invoked. -/
def triggerInvocations (w : World) : Nat :=
  (w.commands.filter Cmd.isTrigger).length

/-- Number of `wsl --shutdown` invocations recorded in the world. -/
def shutdownInvocations (w : World) : Nat :=
  (w.commands.filter Cmd.isShutdown).length

/-- Model of `_load_state` followed by `state.get("phase1_completed")`:
`_load_state` returns `{}` when the state file is absent, in which case
the lookup is falsy. -/
def loadedPhase1Completed (w : World) : Bool :=
  match w.stateFile with
  | some r => r.phase1_completed
  | none => false

/-- Tail of phase 1 after the kernel image has been copied: `os.chdir("..")`,
`_save_state` (mkdir + write of the record), `_create_phase2_script`
(raises `RuntimeError` when the Windows user is empty, otherwise writes
`phase2.ps1`), then `_trigger_phase2` (whose `CalledProcessError` is
caught and treated as an expected outcome). -/
def phase1AfterCopy (c : Config) (e : Env) (w : World) : World × P1Exit :=
  let w := { w with cwd := w.cwd.dropLast }
  let record : StateRecord :=
    { phase1_completed := true
      kernel_built := true
      windows_user := e.windows_user
      timestamp := e.timestamp }
  let w := { w with tempDirExists := true, stateFile := some record }
  if e.windows_user = "" then
    (w, P1Exit.runtimeError)
  else
    let w := { w with winScriptDirExists := true,
                      phase2Script := some ⟨e.windows_user, c.kernel_dest⟩ }
    let w := addCmd w Cmd.powershellPhase2
    (w, P1Exit.retTrue)

/-- Phase 1 body from `os.chdir(self.kernel_dir)` on: install
dependencies, determine `nproc` (falling back to `"4"`), build, install
modules, then check for the kernel image and copy it. -/
def phase1AfterCheckout (c : Config) (e : Env) (w : World) : World × P1Exit :=
  let w := { w with cwd := w.cwd ++ [c.kernel_dir] }
  let w := addCmd w Cmd.aptUpdate
  if ¬ e.aptUpdateOk then (w, P1Exit.calledProcessError) else
  let w := addCmd w Cmd.aptInstall
  if ¬ e.aptInstallOk then (w, P1Exit.calledProcessError) else
  let w := addCmd w Cmd.nproc
  let jobs := match e.nprocOut with
    | some out => if out ≠ "" then out.trim else "4"
    | none => "4"
  let w := addCmd w (Cmd.make jobs)
  if ¬ e.makeOk then (w, P1Exit.calledProcessError) else
  let w := addCmd w Cmd.makeModulesInstall
  if ¬ e.modulesInstallOk then (w, P1Exit.calledProcessError) else
  if e.bzImageExists then
    let w := addCmd w (Cmd.cp "arch/x86/boot/bzImage" c.kernel_dest)
    if ¬ e.cpOk then (w, P1Exit.calledProcessError) else
    phase1AfterCopy c e w
  else
    (w, P1Exit.retFalse)

/-- The `try` body of `phase1_wsl_tasks`: clone the kernel tree when it
is absent (failing with `return False` when auto-clone is disabled),
then continue with the checkout. -/
def phase1Body (c : Config) (e : Env) (w : World) : World × P1Exit :=
  if ¬ e.kernel_dir_exists then
    if c.auto_clone then
      let w := addCmd w (Cmd.gitClone c.kernel_repo c.kernel_dir c.kernel_branch)
      if e.cloneOk then phase1AfterCheckout c e w
      else (w, P1Exit.calledProcessError)
    else
      (w, P1Exit.retFalse)
  else
    phase1AfterCheckout c e w

/-- Model of `phase1_wsl_tasks`: the WSL-environment guard, then the
`try` body with both `except` clauses mapping to `return False`, and the
`finally` block restoring the saved working directory on every exit
path. -/
def phase1_wsl_tasks (c : Config) (e : Env) (w : World) : World × Bool :=
  if ¬ e.is_wsl then (w, false)
  else
    let original_dir := w.cwd
    let r := phase1Body c e w
    ({ r.1 with cwd := original_dir }, r.2 = P1Exit.retTrue)

/-- Model of `phase2_windows_tasks`: the Windows-environment guard, the
state-record check, the `.wslconfig` write at a path derived from the
resolved Windows user, then `wsl --shutdown` (whose failure is caught by
the surrounding `except`, yielding `return False`). -/
def phase2_windows_tasks (c : Config) (e : Env) (w : World) : World × Bool :=
  if e.is_wsl then (w, false)
  else if ¬ loadedPhase1Completed w then (w, false)
  else
    let path := "C:/Users/" ++ e.windows_user ++ "/.wslconfig"
    let content := "[wsl2]\nkernel=" ++ c.kernel_dest ++ "\n"
    let w := { w with wslConfigWrites := w.wslConfigWrites ++ [(path, content)] }
    let w := addCmd w Cmd.wslShutdown
    if e.wslShutdownOk then (w, true) else (w, false)

/-- Model of `cleanup`: remove the scratch directory (and with it the
state record) when it exists; every exception from `shutil.rmtree` is
caught and logged as a warning, so the operation never raises. -/
def cleanup (e : Env) (w : World) : World :=
  if w.tempDirExists then
    if e.rmtreeOk then { w with tempDirExists := false, stateFile := none }
    else w
  else w

/-- Parsed command-line arguments of `main`. -/
structure Args where
  phase : String
  cleanup : Bool
  kernel_branch : String
  kernel_dest : String
  kernel_repo : String
  kernel_dir : String
  no_clone : Bool
deriving Repr, DecidableEq

/-- The `WSL2Automator` constructed by `main` from parsed arguments. -/
def configOfArgs (a : Args) : Config :=
  { kernel_branch := a.kernel_branch
    kernel_dest := a.kernel_dest
    kernel_repo := a.kernel_repo
    kernel_dir := a.kernel_dir
    auto_clone := ¬ a.no_clone }

/-- Model of `main`: `--cleanup` runs cleanup and returns (exit code 0);
otherwise the selected phase runs and the exit code is 0 on success, 1
on failure. -/
def main (a : Args) (e : Env) (w : World) : World × Nat :=
  let c := configOfArgs a
  if a.cleanup then (cleanup e w, 0)
  else
    let r := if a.phase = "1" then phase1_wsl_tasks c e w
             else phase2_windows_tasks c e w
    (r.1, if r.2 then 0 else 1)

/-- Default constructor arguments of `WSL2Automator` / argparse defaults. -/
def cfgDefault : Config :=
  { kernel_branch := "linux-msft-wsl-6.6.y"
    kernel_dest := "C:/bzImage"
    kernel_repo := "https://github.com/microsoft/WSL2-Linux-Kernel.git"
    kernel_dir := "WSL2-Linux-Kernel"
    auto_clone := true }

/-- An environment in which every external command succeeds. -/
def envAllOk : Env :=
  { is_wsl := true
    windows_user := "alice"
    kernel_dir_exists := true
    cloneOk := true
    aptUpdateOk := true
    aptInstallOk := true
    nprocOut := some "8"
    makeOk := true
    modulesInstallOk := true
    bzImageExists := true
    cpOk := true
    triggerExitZero := true
    wslShutdownOk := true
    rmtreeOk := true
    timestamp := 1700000000 }

/-- A fresh world: no scratch state, no prior invocations. -/
def freshWorld : World :=
  { cwd := ["home", "alice"]
    commands := []
    stateFile := none
    tempDirExists := false
    winScriptDirExists := false
    phase2Script := none
    wslConfigWrites := [] }

end WSL2

namespace WSL2

/-- Helper: the tail of phase 1 after the copy step returns normally
exactly when the resolved Windows user is nonempty (`_create_phase2_script`
raises `RuntimeError` on an empty user). -/
theorem phase1AfterCopy_snd (c : Config) (e : Env) (w : World) :
    (phase1AfterCopy c e w).2 = P1Exit.retTrue ↔ e.windows_user ≠ "" := by
  unfold phase1AfterCopy
  by_cases h : e.windows_user = "" <;> simp [h, addCmd]

/-- Helper: when the phase-1 body from the checkout on exits normally,
the resolved Windows user is nonempty. -/
theorem phase1AfterCheckout_retTrue_user (c : Config) (e : Env) (w : World)
    (h : (phase1AfterCheckout c e w).2 = P1Exit.retTrue) : e.windows_user ≠ "" := by
  unfold phase1AfterCheckout at h
  split_ifs at h <;> simp_all
  exact (phase1AfterCopy_snd c e _).mp h

/-- Helper: when the resolved user is nonempty and the phase-1 body from
the checkout on does not exit normally, the failing exit happened before
`_save_state`, so the state record is untouched. -/
theorem phase1AfterCheckout_fail_stateFile (c : Config) (e : Env) (w : World)
    (hu : e.windows_user ≠ "")
    (h : (phase1AfterCheckout c e w).2 ≠ P1Exit.retTrue) :
    (phase1AfterCheckout c e w).1.stateFile = w.stateFile := by
  unfold phase1AfterCheckout at h ⊢
  split_ifs at h ⊢ <;> simp_all [addCmd]
  exact absurd ((phase1AfterCopy_snd c e _).mpr hu) h

/-- Helper: when the whole phase-1 body exits normally, the resolved
Windows user is nonempty. -/
theorem phase1Body_retTrue_user (c : Config) (e : Env) (w : World)
    (h : (phase1Body c e w).2 = P1Exit.retTrue) : e.windows_user ≠ "" := by
  unfold phase1Body at h
  split_ifs at h <;> simp_all [addCmd]
  case _ => exact phase1AfterCheckout_retTrue_user c e _ h
  case _ => exact phase1AfterCheckout_retTrue_user c e _ h

/-- Helper: with a nonempty resolved user, a failing phase-1 body leaves
the state record untouched. -/
theorem phase1Body_fail_stateFile (c : Config) (e : Env) (w : World)
    (hu : e.windows_user ≠ "")
    (h : (phase1Body c e w).2 ≠ P1Exit.retTrue) :
    (phase1Body c e w).1.stateFile = w.stateFile := by
  unfold phase1Body at h ⊢
  split_ifs at h ⊢ <;> simp_all [addCmd]
  case _ => exact phase1AfterCheckout_fail_stateFile c e _ hu h
  case _ => exact phase1AfterCheckout_fail_stateFile c e _ hu h

/-- C1: running Phase 2 when the Handoff State Record is absent or does
not have `phase1_completed = true` fails and performs no file writes: no
`.wslconfig` write, no `wsl --shutdown` invocation, and the state record
itself is untouched (the code takes the early `return False` at the
`state.get("phase1_completed")` check, the spec's `StateNotFoundError`). -/
theorem phase2_without_valid_record_fails_no_writes (c : Config) (e : Env) (w : World)
    (h : loadedPhase1Completed w = false) :
    (phase2_windows_tasks c e w).2 = false ∧
    (phase2_windows_tasks c e w).1.wslConfigWrites = w.wslConfigWrites ∧
    shutdownInvocations (phase2_windows_tasks c e w).1 = shutdownInvocations w ∧
    (phase2_windows_tasks c e w).1.stateFile = w.stateFile := by
  cases hw : e.is_wsl <;> simp [phase2_windows_tasks, h, hw]

/-- C1 witness: on a fresh world (no record) on Windows, Phase 2 fails. -/
theorem phase2_without_valid_record_fails_no_writes_witness :
    loadedPhase1Completed freshWorld = false ∧
    (phase2_windows_tasks cfgDefault { envAllOk with is_wsl := false } freshWorld).2 = false :=
  ⟨rfl, (phase2_without_valid_record_fails_no_writes cfgDefault
    { envAllOk with is_wsl := false } freshWorld rfl).1⟩

/-- C2 counterexample: with an empty resolved Windows user and every
build step succeeding, Phase 1 reports failure (`_create_phase2_script`
raises), yet a Handoff State Record with `phase1_completed = true` exists
afterwards, because `_save_state` runs before `_create_phase2_script`. -/
theorem phase1_failed_run_can_leave_record :
    freshWorld.stateFile = none ∧
    (phase1_wsl_tasks cfgDefault { envAllOk with windows_user := "" } freshWorld).2 = false ∧
    (phase1_wsl_tasks cfgDefault { envAllOk with windows_user := "" } freshWorld).1.stateFile =
      some { phase1_completed := true, kernel_built := true,
             windows_user := "", timestamp := 1700000000 } :=
  ⟨rfl, rfl, rfl⟩

/-- C2 amended: assuming no record existed beforehand and the resolved
Windows user is nonempty, every failing Phase 1 invocation leaves no
Handoff State Record (with an empty user, a failing run can leave one,
since the record is written before the remote-script creation that
fails). -/
theorem record_absent_after_failed_phase1_of_user_resolved (c : Config) (e : Env) (w : World)
    (h0 : w.stateFile = none) (h1 : e.windows_user ≠ "")
    (h2 : (phase1_wsl_tasks c e w).2 = false) :
    (phase1_wsl_tasks c e w).1.stateFile = none := by
  unfold phase1_wsl_tasks at h2 ⊢
  cases hw : e.is_wsl
  · simpa [hw] using h0
  · simp only [hw] at h2 ⊢
    simp at h2 ⊢
    rw [phase1Body_fail_stateFile c e w h1 h2]
    exact h0

/-- C2 amended witness: a failing build (`make` fails) with a resolved
user leaves no record. -/
theorem record_absent_after_failed_phase1_of_user_resolved_witness :
    freshWorld.stateFile = none ∧
    (phase1_wsl_tasks cfgDefault { envAllOk with makeOk := false } freshWorld).2 = false ∧
    (phase1_wsl_tasks cfgDefault { envAllOk with makeOk := false } freshWorld).1.stateFile
      = none :=
  ⟨rfl, rfl, record_absent_after_failed_phase1_of_user_resolved cfgDefault
    { envAllOk with makeOk := false } freshWorld rfl (by decide) rfl⟩

/-- C3 counterexample: with an empty resolved identity and a valid
record, Phase 2 does not fail: it reports success and writes the
configuration file at `C:/Users//.wslconfig`, a path derived from the
empty identity (no identity check exists in `phase2_windows_tasks`). -/
theorem phase2_empty_identity_writes_config :
    (phase2_windows_tasks cfgDefault
      { envAllOk with is_wsl := false, windows_user := "" }
      { freshWorld with stateFile := some ⟨true, true, "", 0⟩ }).2 = true ∧
    (phase2_windows_tasks cfgDefault
      { envAllOk with is_wsl := false, windows_user := "" }
      { freshWorld with stateFile := some ⟨true, true, "", 0⟩ }).1.wslConfigWrites =
      [("C:/Users//.wslconfig", "[wsl2]\nkernel=C:/bzImage\n")] :=
  ⟨rfl, rfl⟩

/-- C3 amended: with an empty resolved identity, Phase 1 always fails
(the remote-script creation raises before any success exit), but Phase 2
performs no identity check: run on Windows with a valid record it writes
the configuration file at `C:/Users//.wslconfig`, the path derived from
the empty identity. -/
theorem empty_identity_phase1_fails_phase2_writes_anyway (c : Config) (e : Env) (w : World)
    (h : e.windows_user = "") :
    (phase1_wsl_tasks c e w).2 = false ∧
    (e.is_wsl = false → loadedPhase1Completed w = true →
      (phase2_windows_tasks c e w).1.wslConfigWrites =
        w.wslConfigWrites ++
          [("C:/Users//.wslconfig", "[wsl2]\nkernel=" ++ c.kernel_dest ++ "\n")]) := by
  constructor
  · unfold phase1_wsl_tasks
    cases hw : e.is_wsl
    · simp [hw]
    · simp only [hw]
      simp
      intro hr
      exact absurd h (phase1Body_retTrue_user c e w hr)
  · intro hw hs
    cases hso : e.wslShutdownOk <;>
      simp [phase2_windows_tasks, hw, hs, h, hso, addCmd]

/-- C3 amended witness: Phase 1 with an empty identity fails even when
every external command succeeds. -/
theorem empty_identity_phase1_fails_phase2_writes_anyway_witness :
    (phase1_wsl_tasks cfgDefault { envAllOk with windows_user := "" } freshWorld).2 = false :=
  (empty_identity_phase1_fails_phase2_writes_anyway cfgDefault
    { envAllOk with windows_user := "" } freshWorld rfl).1

/-- C4: when the build and install steps complete but the kernel image
is absent at `arch/x86/boot/bzImage`, Phase 1 fails via the explicit
artifact-missing `return False` (the spec's `BuildArtifactMissingError`)
and leaves the Handoff State Record exactly as it was. -/
theorem missing_artifact_fails_without_record (c : Config) (e : Env) (w : World)
    (hw : e.is_wsl = true)
    (hdir : e.kernel_dir_exists = true ∨ (c.auto_clone = true ∧ e.cloneOk = true))
    (h1 : e.aptUpdateOk = true) (h2 : e.aptInstallOk = true)
    (h3 : e.makeOk = true) (h4 : e.modulesInstallOk = true)
    (h5 : e.bzImageExists = false) :
    (phase1_wsl_tasks c e w).2 = false ∧
    (phase1Body c e w).2 = P1Exit.retFalse ∧
    (phase1_wsl_tasks c e w).1.stateFile = w.stateFile := by
  rcases hdir with hd | ⟨hac, hcl⟩ <;>
  · cases hke : e.kernel_dir_exists <;>
      simp_all [phase1_wsl_tasks, phase1Body, phase1AfterCheckout, addCmd]

/-- C4 witness: missing artifact with everything else succeeding. -/
theorem missing_artifact_fails_without_record_witness :
    (phase1_wsl_tasks cfgDefault { envAllOk with bzImageExists := false } freshWorld).2 = false ∧
    (phase1_wsl_tasks cfgDefault { envAllOk with bzImageExists := false } freshWorld).1.stateFile
      = freshWorld.stateFile :=
  ⟨(missing_artifact_fails_without_record cfgDefault
      { envAllOk with bzImageExists := false } freshWorld rfl (Or.inl rfl)
      rfl rfl rfl rfl rfl).1,
   (missing_artifact_fails_without_record cfgDefault
      { envAllOk with bzImageExists := false } freshWorld rfl (Or.inl rfl)
      rfl rfl rfl rfl rfl).2.2⟩

/-- C5: on every exit path of a Phase 1 invocation — wrong environment,
any step's `return False`, any caught exception, or success — the working
directory afterwards equals the working directory beforehand (`finally:
os.chdir(original_dir)`). -/
theorem phase1_restores_cwd (c : Config) (e : Env) (w : World) :
    (phase1_wsl_tasks c e w).1.cwd = w.cwd := by
  cases hw : e.is_wsl <;> simp [phase1_wsl_tasks, hw]

/-- C6: when every build step succeeds and the generated remote script's
invocation exits non-zero, Phase 1 does not abort: `_trigger_phase2`
catches the `CalledProcessError` as the expected WSL-shutdown disconnect,
the invocation is still counted once, and Phase 1 reports success. -/
theorem trigger_failure_tolerated (c : Config) (e : Env) (w : World)
    (hw : e.is_wsl = true)
    (hdir : e.kernel_dir_exists = true ∨ (c.auto_clone = true ∧ e.cloneOk = true))
    (h1 : e.aptUpdateOk = true) (h2 : e.aptInstallOk = true)
    (h3 : e.makeOk = true) (h4 : e.modulesInstallOk = true)
    (h5 : e.bzImageExists = true) (h6 : e.cpOk = true)
    (h7 : e.windows_user ≠ "")
    (_h8 : e.triggerExitZero = false) :
    (phase1_wsl_tasks c e w).2 = true ∧
    triggerInvocations (phase1_wsl_tasks c e w).1 = triggerInvocations w + 1 := by
  rcases hdir with hd | ⟨hac, hcl⟩ <;>
  · cases hke : e.kernel_dir_exists <;>
      simp_all [phase1_wsl_tasks, phase1Body, phase1AfterCheckout, phase1AfterCopy,
        addCmd, triggerInvocations, Cmd.isTrigger]

/-- C6 witness: a non-zero trigger exit with everything else succeeding. -/
theorem trigger_failure_tolerated_witness :
    (phase1_wsl_tasks cfgDefault { envAllOk with triggerExitZero := false } freshWorld).2
      = true ∧
    triggerInvocations
      (phase1_wsl_tasks cfgDefault { envAllOk with triggerExitZero := false } freshWorld).1
      = triggerInvocations freshWorld + 1 :=
  trigger_failure_tolerated cfgDefault { envAllOk with triggerExitZero := false } freshWorld
    rfl (Or.inl rfl) rfl rfl rfl rfl rfl rfl (by decide) rfl

/-- C7: cleanup is idempotent — running it twice yields the same world
as running it once, it is an exact no-op when the scratch directory does
not exist, and when the deletion succeeds the scratch directory is
absent afterwards; it never raises (every exception is caught and
reported as a warning). -/
theorem cleanup_idempotent (e : Env) (w : World) :
    cleanup e (cleanup e w) = cleanup e w ∧
    (w.tempDirExists = false → cleanup e w = w) ∧
    (e.rmtreeOk = true → (cleanup e w).tempDirExists = false) := by
  cases ht : w.tempDirExists <;> cases hr : e.rmtreeOk <;>
    simp [cleanup, ht, hr]

/-- C7 witness: double cleanup equals single cleanup even when
`shutil.rmtree` fails, and a successful cleanup leaves the scratch
directory absent. -/
theorem cleanup_idempotent_witness :
    cleanup { envAllOk with rmtreeOk := false } (cleanup { envAllOk with rmtreeOk := false }
      { freshWorld with tempDirExists := true })
      = cleanup { envAllOk with rmtreeOk := false } { freshWorld with tempDirExists := true } ∧
    (cleanup envAllOk { freshWorld with tempDirExists := true }).tempDirExists = false :=
  ⟨(cleanup_idempotent { envAllOk with rmtreeOk := false }
      { freshWorld with tempDirExists := true }).1,
   (cleanup_idempotent envAllOk { freshWorld with tempDirExists := true }).2.2 rfl⟩

/-- C8 counterexample: with the checkout absent, fetch enabled and
succeeding, package install succeeding, the build producing the artifact
and the copy succeeding — all of the claim's hypotheses — but an empty
resolved identity, Phase 1 does not generate the remote script and
attempts its invocation zero times (and reports failure), refuting the
claim as stated. -/
theorem end_to_end_without_identity_fails :
    (phase1_wsl_tasks cfgDefault
      { envAllOk with kernel_dir_exists := false, windows_user := "" } freshWorld).1.phase2Script
        = none ∧
    triggerInvocations (phase1_wsl_tasks cfgDefault
      { envAllOk with kernel_dir_exists := false, windows_user := "" } freshWorld).1 = 0 ∧
    (phase1_wsl_tasks cfgDefault
      { envAllOk with kernel_dir_exists := false, windows_user := "" } freshWorld).2 = false :=
  ⟨rfl, rfl, rfl⟩

/-- C8 amended: in the subsystem environment with a nonempty resolved
identity, if the checkout is absent, fetch is enabled and succeeds,
package installation succeeds, the build produces the artifact and the
copy succeeds, then Phase 1 writes a record with `phase1_completed = true`
and `kernel_built = true`, generates the remote script, attempts its
invocation exactly once, and reports success. -/
theorem end_to_end_success (c : Config) (e : Env) (w : World)
    (hw : e.is_wsl = true)
    (habs : e.kernel_dir_exists = false)
    (hac : c.auto_clone = true) (hcl : e.cloneOk = true)
    (h1 : e.aptUpdateOk = true) (h2 : e.aptInstallOk = true)
    (h3 : e.makeOk = true) (h4 : e.modulesInstallOk = true)
    (h5 : e.bzImageExists = true) (h6 : e.cpOk = true)
    (h7 : e.windows_user ≠ "") :
    (phase1_wsl_tasks c e w).1.stateFile =
      some { phase1_completed := true, kernel_built := true,
             windows_user := e.windows_user, timestamp := e.timestamp } ∧
    (phase1_wsl_tasks c e w).1.phase2Script = some ⟨e.windows_user, c.kernel_dest⟩ ∧
    triggerInvocations (phase1_wsl_tasks c e w).1 = triggerInvocations w + 1 ∧
    (phase1_wsl_tasks c e w).2 = true := by
  simp_all [phase1_wsl_tasks, phase1Body, phase1AfterCheckout, phase1AfterCopy,
    addCmd, triggerInvocations, Cmd.isTrigger]

/-- C8 amended witness: the end-to-end scenario with the default
configuration and user `alice`. -/
theorem end_to_end_success_witness :
    (phase1_wsl_tasks cfgDefault { envAllOk with kernel_dir_exists := false }
        freshWorld).1.stateFile =
      some { phase1_completed := true, kernel_built := true,
             windows_user := "alice", timestamp := 1700000000 } ∧
    (phase1_wsl_tasks cfgDefault { envAllOk with kernel_dir_exists := false }
        freshWorld).1.phase2Script = some ⟨"alice", "C:/bzImage"⟩ ∧
    triggerInvocations (phase1_wsl_tasks cfgDefault
      { envAllOk with kernel_dir_exists := false } freshWorld).1 = 1 ∧
    (phase1_wsl_tasks cfgDefault { envAllOk with kernel_dir_exists := false } freshWorld).2
      = true :=
  end_to_end_success cfgDefault { envAllOk with kernel_dir_exists := false } freshWorld
    rfl rfl rfl rfl rfl rfl rfl rfl rfl rfl (by decide)

/-- C9: with fetch disabled and the checkout directory absent, Phase 1
fails before invoking anything: the command trace is unchanged, so in
particular the package-manager invocation count does not increase. -/
theorem no_clone_absent_checkout_no_apt (c : Config) (e : Env) (w : World)
    (habs : e.kernel_dir_exists = false) (hnc : c.auto_clone = false) :
    (phase1_wsl_tasks c e w).2 = false ∧
    (phase1_wsl_tasks c e w).1.commands = w.commands ∧
    aptInvocations (phase1_wsl_tasks c e w).1 = aptInvocations w := by
  cases hw : e.is_wsl <;>
    simp [phase1_wsl_tasks, phase1Body, habs, hnc, hw]

/-- C9 witness: on a fresh world the package-manager invocation count is
zero. -/
theorem no_clone_absent_checkout_no_apt_witness :
    (phase1_wsl_tasks { cfgDefault with auto_clone := false }
      { envAllOk with kernel_dir_exists := false } freshWorld).2 = false ∧
    aptInvocations (phase1_wsl_tasks { cfgDefault with auto_clone := false }
      { envAllOk with kernel_dir_exists := false } freshWorld).1 = 0 :=
  ⟨(no_clone_absent_checkout_no_apt { cfgDefault with auto_clone := false }
      { envAllOk with kernel_dir_exists := false } freshWorld rfl rfl).1,
   (no_clone_absent_checkout_no_apt { cfgDefault with auto_clone := false }
      { envAllOk with kernel_dir_exists := false } freshWorld rfl rfl).2.2⟩

/-- C10: invoking the program with `--cleanup` always exits with status
code 0: `cleanup` catches every exception from the deletion and `main`
returns without calling `sys.exit` with a non-zero status. -/
theorem cleanup_flag_exits_zero (a : Args) (e : Env) (w : World)
    (h : a.cleanup = true) :
    (main a e w).2 = 0 := by
  simp [main, h]

/-- C10 witness: exit code 0 even when the scratch directory exists and
its deletion fails. -/
theorem cleanup_flag_exits_zero_witness :
    (main { phase := "1", cleanup := true, kernel_branch := "linux-msft-wsl-6.6.y",
            kernel_dest := "C:/bzImage",
            kernel_repo := "https://github.com/microsoft/WSL2-Linux-Kernel.git",
            kernel_dir := "WSL2-Linux-Kernel", no_clone := false }
      { envAllOk with rmtreeOk := false } { freshWorld with tempDirExists := true }).2 = 0 :=
  cleanup_flag_exits_zero _ { envAllOk with rmtreeOk := false }
    { freshWorld with tempDirExists := true } rfl

end WSL2
